import Mathlib

/-!
Verification development for the gochecks repository (SNMP health probes).

The definitions below are a shallow embedding of the Go source:

* `cmd/check_interface_usage/check_interface_usage.go` — `convertToScale`,
  `GetInterfaceMetrics` (its decode step), `DetermineInterfaceUsage`;
* `cmd/check_interfaces/check_interfaces.go` — `updateInterfaceDetails`,
  the table-assembly loop of `CheckInterfaceMetrics`, `renderToString`,
  `buildInterfaceDetailsMessage`;
* `cmd/device_inventory/device_inventory.go` — `collectPhysicalEntities`;
* `cmd/check_bgp_peers/check_bgp_peers.go` — the verdict logic of `main`.

Machine integers are modelled as `Nat` with explicit `% 2 ^ 64` where Go's
unsigned wrap-around matters.  Go runtime panics (integer division by zero,
failed type assertions, out-of-range indexing) are modelled as `none` /
`.panicked` outcomes.  The SNMP transport is the external collaborator of the
spec: walk and get responses appear as explicit argument lists.
-/

/-- Tri-state check outcome of the gomonitor result-reporting collaborator
(spec section 6): OK / WARNING / CRITICAL / UNKNOWN. -/
inductive CheckState where
  | OK
  | Warning
  | Critical
  | Unknown
deriving DecidableEq, Repr

/-- One named performance sample of the result-reporting collaborator
(gomonitor `PerformanceMetric`).  Go stores `float64`; every value the
checks ever store is an exact integer or an exact ratio, so the embedding
uses `Rat`. -/
structure PerfMetric where
  Value : Rat := 0
  Warn : Rat := 0
  Crit : Rat := 0
  Min : Rat := 0
  Max : Rat := 0
  UnitOM : String := ""
deriving DecidableEq, Repr

/-- Verdict record of the result-reporting collaborator (gomonitor
`CheckResult`): state, free-text message, ordered performance samples. -/
structure CheckResult where
  state : CheckState := .OK
  message : String := ""
  perfData : List (String × PerfMetric) := []
deriving DecidableEq, Repr

/-- Models `gomonitor.NewCheckResult()`: a fresh result; every code path of
the checks overwrites `state` and `message` via `SetResult` before the
result is observed. -/
def NewCheckResult : CheckResult := {}

/-- Models `CheckResult.SetResult(state, message)` of gomonitor: record the
verdict state and message. -/
def CheckResult.SetResult (cr : CheckResult) (s : CheckState) (m : String) : CheckResult :=
  { cr with state := s, message := m }

/-- Models `CheckResult.AddPerformanceData(name, metric)` of gomonitor:
append one named performance sample. -/
def CheckResult.AddPerformanceData (cr : CheckResult) (name : String) (m : PerfMetric) :
    CheckResult :=
  { cr with perfData := cr.perfData ++ [(name, m)] }

/-- Go unsigned integer division `a / b`.  A zero divisor is a Go runtime
panic (`integer divide by zero`), modelled as `none`. -/
def goDivU (a b : Nat) : Option Nat :=
  if b = 0 then none else some (a / b)

/-- Go 64-bit unsigned subtraction `a - b` (both operands below `2 ^ 64`):
wraps modulo `2 ^ 64`.  This is the exact semantics of `second.In - first.In`
(Go `uint` is 64 bits on the repository's amd64/arm64 targets) and of
`second.HCIn - first.HCIn` (`uint64`) in `DetermineInterfaceUsage`. -/
def goSubU64 (a b : Nat) : Nat :=
  (2 ^ 64 + a - b) % 2 ^ 64

/-- Go conversion `uint64(i)` of a (64-bit) signed integer: two's-complement
reinterpretation, i.e. the representative of `i` modulo `2 ^ 64`. -/
def goUint64OfInt (i : Int) : Nat :=
  (i % (2 ^ 64 : Int)).toNat

/-- Scale selection of `convertToScale` (check_interface_usage.go lines
54-69), as a function of the bits-per-second value `bps` computed on line
53: stay below 1000 in the current unit, divide by 1000 and promote
otherwise, with Gbps as the last unit. -/
def scaleBps (bps : Nat) : Nat × String :=
  if bps < 1000 then (bps, "bps")
  else
    let kbps := bps / 1000
    if kbps < 1000 then (kbps, "Kbps")
    else
      let mbps := kbps / 1000
      if mbps < 1000 then (mbps, "Mbps")
      else
        let gbps := mbps / 1000
        (gbps, "Gbps")

/-- Models `convertToScale(value uint64) (uint64, string)` of
check_interface_usage.go: multiply the octets-per-second input by 8 (uint64
multiplication, wrapping modulo `2 ^ 64`) and select the display scale. -/
def convertToScale (value : Nat) : Nat × String :=
  scaleBps (value * 8 % 2 ^ 64)

/-- Models the `InterfaceMetrics` struct of check_interface_usage.go.
`In`/`Out` are Go `uint`, `HCIn`/`HCOut` are `uint64` (both 64-bit here);
`Latency` is in nanoseconds (Go `time.Duration`); `Timestamp` is in
nanoseconds since an arbitrary origin (Go `time.Time`). -/
structure InterfaceMetrics where
  Name : String := ""
  In : Nat := 0
  Out : Nat := 0
  HCIn : Nat := 0
  HCOut : Nat := 0
  Speed : Nat := 0
  HighSpeed : Nat := 0
  Latency : Nat := 0
  Timestamp : Nat := 0
deriving DecidableEq, Repr

/-- Threshold chain of `DetermineInterfaceUsage` (check_interface_usage.go
lines 168-178), verbatim: inbound critical, inbound warning, outbound
critical, outbound warning, else OK.  Each comparison is between a scaled
display value (`intIn` etc., the first component of `convertToScale`) and
the `uint64` conversion of the signed threshold flag. -/
def evaluateThresholds (intIn intHCIn intOut intHCOut : Nat)
    (warnIn warnOut critIn critOut : Int) (message : String)
    (cr : CheckResult) : CheckResult :=
  if intIn > goUint64OfInt critIn ∨ intHCIn > goUint64OfInt critIn then
    cr.SetResult .Critical ("Inbound exceeds threshold " ++ message)
  else if intIn > goUint64OfInt warnIn ∨ intHCIn > goUint64OfInt warnIn then
    cr.SetResult .Warning ("Inbound exceeds threshold " ++ message)
  else if intOut > goUint64OfInt critOut ∨ intHCOut > goUint64OfInt critOut then
    cr.SetResult .Critical ("Outbound exceeds threshold " ++ message)
  else if intOut > goUint64OfInt warnOut ∨ intHCOut > goUint64OfInt warnOut then
    cr.SetResult .Warning ("Outbound exceeds threshold " ++ message)
  else
    cr.SetResult .OK message

/-- Models `DetermineInterfaceUsage` of check_interface_usage.go (lines
142-180).  `uint(period)` truncates `periodDiff.Seconds()`; with timestamps
in whole nanoseconds this is `(t2 - t1) / 1000000000`.  Each rate is the
wrapped 64-bit counter difference divided by that truncated period; the Go
division panics when the truncated period is zero, so the function returns
`none` exactly there (the model is for `second.Timestamp ≥
first.Timestamp`; a negative period's conversion to `uint` is undefined in
Go).  The scaled values feed the message and the threshold chain. -/
def DetermineInterfaceUsage (first second : InterfaceMetrics)
    (warnIn warnOut critIn critOut : Int) (enablePerf : Bool) :
    Option CheckResult :=
  let intName := first.Name
  let period := (second.Timestamp - first.Timestamp) / 1000000000
  let avgLatency := (first.Latency + second.Latency) / 2
  match goDivU (goSubU64 second.In first.In) period,
        goDivU (goSubU64 second.Out first.Out) period,
        goDivU (goSubU64 second.HCIn first.HCIn) period,
        goDivU (goSubU64 second.HCOut first.HCOut) period with
  | some inRate, some outRate, some hcIn, some hcOut =>
    let intIn := (convertToScale inRate).1
    let intInUnit := (convertToScale inRate).2
    let intOut := (convertToScale outRate).1
    let intOutUnit := (convertToScale outRate).2
    let intHCIn := (convertToScale hcIn).1
    let intHCInUnit := (convertToScale hcIn).2
    let intHCOut := (convertToScale hcOut).1
    let intHCOutUnit := (convertToScale hcOut).2
    let message := intName ++ " - In: " ++ toString intIn ++ " " ++ intInUnit ++
      " Out: " ++ toString intOut ++ " " ++ intOutUnit ++
      " HCIn: " ++ toString intHCIn ++ " " ++ intHCInUnit ++
      " HCOut: " ++ toString intHCOut ++ " " ++ intHCOutUnit
    let cr := NewCheckResult
    let cr :=
      if enablePerf then
        (((((cr.AddPerformanceData "snmp_latency"
          { Value := (avgLatency : Rat) / 1000000000, UnitOM := "s" }).AddPerformanceData "in"
          { Value := (inRate * 8 % 2 ^ 64 : Nat), Warn := (warnIn : Rat), Crit := (critIn : Rat),
            Min := 0, Max := (first.Speed : Rat), UnitOM := "bps" }).AddPerformanceData "out"
          { Value := (outRate * 8 % 2 ^ 64 : Nat), Warn := (warnOut : Rat), Crit := (critOut : Rat),
            Min := 0, Max := (first.Speed : Rat), UnitOM := "bps" }).AddPerformanceData "hc_in"
          { Value := (hcIn * 8 % 2 ^ 64 : Nat), Warn := (warnIn : Rat), Crit := (critIn : Rat),
            Min := 0, Max := (first.Speed : Rat), UnitOM := "bps" }).AddPerformanceData "hc_out"
          { Value := (hcOut * 8 % 2 ^ 64 : Nat), Warn := (warnOut : Rat), Crit := (critOut : Rat),
            Min := 0, Max := (first.Speed : Rat), UnitOM := "bps" })
      else cr
    some (evaluateThresholds intIn intHCIn intOut intHCOut
      warnIn warnOut critIn critOut message cr)
  | _, _, _, _ => none

/-- First sample of the end-to-end scenario: `ifInOctets = 1000`,
`ifOutOctets = 2000` at `t = 0`. -/
def c1First : InterfaceMetrics :=
  { Name := "eth0", In := 1000, Out := 2000, Speed := 1000000000, Timestamp := 0 }

/-- Second sample of the end-to-end scenario: `ifInOctets = 11000`,
`ifOutOctets = 2000` at `t = 10` seconds. -/
def c1Second : InterfaceMetrics :=
  { Name := "eth0", In := 11000, Out := 2000, Speed := 1000000000,
    Timestamp := 10000000000 }

/-- First sample for the 32-bit wraparound scenario: `ifInOctets =
4000000000` at `t = 0`. -/
def c4First : InterfaceMetrics :=
  { Name := "eth1", In := 4000000000, Timestamp := 0 }

/-- Second sample for the 32-bit wraparound scenario: the counter wrapped
to `ifInOctets = 1000` at `t = 10` seconds. -/
def c4Second : InterfaceMetrics :=
  { Name := "eth1", In := 1000, Timestamp := 10000000000 }

/-- Sample used to exercise the zero-period path: any snapshot taken twice
with the same timestamp. -/
def c2Sample : InterfaceMetrics :=
  { Name := "eth2", In := 5000, Out := 6000, HCIn := 7000, HCOut := 8000,
    Timestamp := 42000000000 }

/-- C1: in the end-to-end scenario (ifInOctets 1000 at t=0, 11000 at t=10s,
warnIn = critIn = 0) the computed rate is indeed 8000 bps rendered as
"8 Kbps" and the message contains "8 Kbps", but zero thresholds are NOT
skipped: `DetermineInterfaceUsage` compares the scaled value 8 against
`uint64(critIn) = 0` and returns CRITICAL, not OK.  This theorem evaluates
the embedded code at exactly the claimed scenario. -/
theorem c1_zero_threshold_scenario_eval :
    DetermineInterfaceUsage c1First c1Second 0 0 0 0 false =
      some { state := .Critical,
             message := "Inbound exceeds threshold eth0 - In: 8 Kbps Out: 0 bps HCIn: 0 bps HCOut: 0 bps",
             perfData := [] } := by
  decide

/-- C2: when the two samples carry the same timestamp, the truncated period
is zero and `DetermineInterfaceUsage` hits Go's integer division by zero —
a runtime panic (`none` in the embedding), not a `ZeroPeriod` error and not
a well-formed verdict. -/
theorem c2_equal_timestamps_divide_by_zero (first second : InterfaceMetrics)
    (warnIn warnOut critIn critOut : Int) (enablePerf : Bool)
    (h : second.Timestamp = first.Timestamp) :
    DetermineInterfaceUsage first second warnIn warnOut critIn critOut enablePerf = none := by
  simp [DetermineInterfaceUsage, h, Nat.sub_self, goDivU]

/-- Witness for `c2_equal_timestamps_divide_by_zero` at a concrete pair of
samples with equal timestamps. -/
theorem c2_equal_timestamps_divide_by_zero_witness :
    DetermineInterfaceUsage c2Sample c2Sample 0 0 0 0 false = none :=
  c2_equal_timestamps_divide_by_zero c2Sample c2Sample 0 0 0 0 false rfl

/-- C4: for the wrapped 32-bit counter pair (first = 4000000000, second =
1000) the code's delta is the 64-bit modular difference
18446744069709552616, not the claimed `(2^32 - first) + second =
294968296`; fed through `DetermineInterfaceUsage` this renders an absurd
14757395255 Gbps inbound rate.  No wraparound handling exists in the
source. -/
theorem c4_wraparound_not_handled :
    goSubU64 1000 4000000000 = 18446744069709552616 ∧
    (2 ^ 32 - 4000000000) + 1000 = 294968296 ∧
    goSubU64 1000 4000000000 ≠ (2 ^ 32 - 4000000000) + 1000 ∧
    (DetermineInterfaceUsage c4First c4Second 0 0 0 0 false).map CheckResult.message =
      some "Inbound exceeds threshold eth1 - In: 14757395255 Gbps Out: 0 bps HCIn: 0 bps HCOut: 0 bps" := by
  refine ⟨by decide, by decide, by decide, by decide⟩

/-- C5: the threshold chain evaluates inbound-critical first: whenever the
inbound comparison exceeds both its warning and critical thresholds (in
the code's sense: scaled standard or high-capacity value strictly above
the `uint64` conversion of the flag) and the outbound comparison exceeds
only its warning threshold, the verdict is CRITICAL citing inbound — never
WARNING citing outbound. -/
theorem c5_threshold_precedence (intIn intHCIn intOut intHCOut : Nat)
    (warnIn warnOut critIn critOut : Int) (message : String) (cr : CheckResult)
    (hInCrit : intIn > goUint64OfInt critIn ∨ intHCIn > goUint64OfInt critIn)
    (hInWarn : intIn > goUint64OfInt warnIn ∨ intHCIn > goUint64OfInt warnIn)
    (hOutWarn : intOut > goUint64OfInt warnOut ∨ intHCOut > goUint64OfInt warnOut)
    (hOutCrit : ¬(intOut > goUint64OfInt critOut ∨ intHCOut > goUint64OfInt critOut)) :
    (evaluateThresholds intIn intHCIn intOut intHCOut
        warnIn warnOut critIn critOut message cr).state = .Critical ∧
    (evaluateThresholds intIn intHCIn intOut intHCOut
        warnIn warnOut critIn critOut message cr).message =
      "Inbound exceeds threshold " ++ message := by
  unfold evaluateThresholds
  rw [if_pos hInCrit]
  exact ⟨rfl, rfl⟩

/-- Witness for `c5_threshold_precedence`: inbound scaled value 8 against
warn 4 / crit 7, outbound scaled value 2 against warn 1 / crit 100. -/
theorem c5_threshold_precedence_witness :
    (evaluateThresholds 8 0 2 0 4 1 7 100 "m" NewCheckResult).state = .Critical ∧
    (evaluateThresholds 8 0 2 0 4 1 7 100 "m" NewCheckResult).message =
      "Inbound exceeds threshold m" :=
  c5_threshold_precedence 8 0 2 0 4 1 7 100 "m" NewCheckResult
    (by decide) (by decide) (by decide) (by decide)

/-- C6: scale selection promotes at exactly powers of 1000 with Gbps as the
ceiling: below 1000 the value stays in its unit, at or above 1000 it is
divided by 1000 and promoted; 999 renders as bps, 1000 as 1 Kbps, 10^6 as
1 Mbps, 10^9 as 1 Gbps, and no input receives a unit beyond Gbps. -/
theorem c6_scale_conversion :
    (∀ b : Nat, b < 1000 → scaleBps b = (b, "bps")) ∧
    (∀ b : Nat, 1000 ≤ b → b / 1000 < 1000 → scaleBps b = (b / 1000, "Kbps")) ∧
    (∀ b : Nat, 1000 ≤ b / 1000 → b / 1000 / 1000 < 1000 →
      scaleBps b = (b / 1000 / 1000, "Mbps")) ∧
    (∀ b : Nat, 1000 ≤ b / 1000 / 1000 →
      scaleBps b = (b / 1000 / 1000 / 1000, "Gbps")) ∧
    scaleBps 999 = (999, "bps") ∧ scaleBps 1000 = (1, "Kbps") ∧
    scaleBps 1000000 = (1, "Mbps") ∧ scaleBps 1000000000 = (1, "Gbps") ∧
    (∀ b : Nat, (scaleBps b).2 = "bps" ∨ (scaleBps b).2 = "Kbps" ∨
      (scaleBps b).2 = "Mbps" ∨ (scaleBps b).2 = "Gbps") := by
  refine ⟨?_, ?_, ?_, ?_, by decide, by decide, by decide, by decide, ?_⟩
  · intro b h
    simp [scaleBps, h]
  · intro b h1 h2
    simp only [scaleBps]
    rw [if_neg (by omega), if_pos h2]
  · intro b h1 h2
    simp only [scaleBps]
    rw [if_neg (by omega), if_neg (by omega), if_pos h2]
  · intro b h1
    simp only [scaleBps]
    rw [if_neg (by omega), if_neg (by omega), if_neg (by omega)]
  · intro b
    simp only [scaleBps]
    by_cases h1 : b < 1000
    · simp [h1]
    · by_cases h2 : b / 1000 < 1000
      · simp [h1, h2]
      · by_cases h3 : b / 1000 / 1000 < 1000
        · simp [h1, h2, h3]
        · simp [h1, h2, h3]

/-- Witness for `c6_scale_conversion`: the bps and Kbps branches at
concrete inputs 500 and 8000. -/
theorem c6_scale_conversion_witness :
    scaleBps 500 = (500, "bps") ∧ scaleBps 8000 = (8, "Kbps") :=
  ⟨c6_scale_conversion.1 500 (by decide),
   c6_scale_conversion.2.1 8000 (by decide) (by decide)⟩

/-- Dynamically typed SNMP wire value as delivered by the gosnmp transport
(`interface{}` in Go): the closed set of dynamic types the checks' type
switches and type assertions test for. -/
inductive GoValue where
  | goInt (v : Int)
  | goUint (v : Nat)
  | goUint32 (v : Nat)
  | goUint64 (v : Nat)
  | goBytes (bs : List Nat)
  | goNil
deriving DecidableEq, Repr

/-- Go `string(bs)` on a byte slice, restricted to single-byte characters
(exact for the ASCII data exercised here). -/
def bytesToStr (bs : List Nat) : String :=
  String.mk (bs.map fun b => Char.ofNat (b % 256))

/-- Models `hex.EncodeToString`: lowercase hexadecimal, two digits per
byte, no separators. -/
def hexEncodeBytes (bs : List Nat) : String :=
  String.mk (bs.foldr (fun b acc =>
    Nat.digitChar (b % 256 / 16) :: Nat.digitChar (b % 16) :: acc) [])

def OIDIfDescr : String := ".1.3.6.1.2.1.2.2.1.2"
def OIDIfName : String := ".1.3.6.1.2.1.31.1.1.1.1"
def OIDIfAlias : String := ".1.3.6.1.2.1.31.1.1.1.18"
def OIDIfPhysAddress : String := ".1.3.6.1.2.1.2.2.1.6"
def OIDIfIndex : String := ".1.3.6.1.2.1.2.2.1.1"
def OIDIfType : String := ".1.3.6.1.2.1.2.2.1.3"
def OIDIfMTU : String := ".1.3.6.1.2.1.2.2.1.4"
def OIDIfSpeed : String := ".1.3.6.1.2.1.2.2.1.5"
def OIDIfHighSpeed : String := ".1.3.6.1.2.1.31.1.1.1.15"
def OIDIfOperStatus : String := ".1.3.6.1.2.1.2.2.1.8"
def OIDIfAdminStatus : String := ".1.3.6.1.2.1.2.2.1.7"
def OIDIfInOctets : String := ".1.3.6.1.2.1.2.2.1.10"
def OIDIfOutOctets : String := ".1.3.6.1.2.1.2.2.1.16"
def OIDHCInOctets : String := ".1.3.6.1.2.1.31.1.1.1.6"
def OIDHCOutOctets : String := ".1.3.6.1.2.1.31.1.1.1.10"
def OIDIfInUcastPkts : String := ".1.3.6.1.2.1.2.2.1.11"
def OIDIfOutUcastPkts : String := ".1.3.6.1.2.1.2.2.1.17"
def OIDHCInUcastPkts : String := ".1.3.6.1.2.1.31.1.1.1.7"
def OIDHCOutUcastPkts : String := ".1.3.6.1.2.1.31.1.1.1.11"
def OIDIfInBroadcastPkts : String := ".1.3.6.1.2.1.31.1.1.1.3"
def OIDIfOutBroadcastPkts : String := ".1.3.6.1.2.1.31.1.1.1.5"
def OIDIfHCInBroadcastPkts : String := ".1.3.6.1.2.1.31.1.1.1.9"
def OIDIfHCOutBroadcastPkts : String := ".1.3.6.1.2.1.31.1.1.1.13"
def OIDIfInMulticastPkts : String := ".1.3.6.1.2.1.31.1.1.1.2"
def OIDIfOutMulticastPkts : String := ".1.3.6.1.2.1.31.1.1.1.4"
def OIDIfHCInMulticastPkts : String := ".1.3.6.1.2.1.31.1.1.1.8"
def OIDIfHCOutMulticastPkts : String := ".1.3.6.1.2.1.31.1.1.1.12"
def OIDIfOutNUcastPkts : String := ".1.3.6.1.2.1.2.2.1.15"
def OIDIfInErrors : String := ".1.3.6.1.2.1.2.2.1.14"
def OIDIfOutErrors : String := ".1.3.6.1.2.1.2.2.1.20"
def OIDIfInDiscards : String := ".1.3.6.1.2.1.2.2.1.13"
def OIDIfOutDiscards : String := ".1.3.6.1.2.1.2.2.1.19"
def OIDIfLastChange : String := ".1.3.6.1.2.1.2.2.1.9"
def OIDIfLinkUpDownTrapEnable : String := ".1.3.6.1.2.1.31.1.1.1.14"
def OIDIfPromiscuousMode : String := ".1.3.6.1.2.1.31.1.1.1.16"
def OIDIfConnectorPresent : String := ".1.3.6.1.2.1.31.1.1.1.17"
def OIDIfCounterDiscontinuityTime : String := ".1.3.6.1.2.1.31.1.1.1.19"

/-- Models the `InterfaceDetail` struct of check_interfaces.go.  Go `int`
fields are `Int`, unsigned fields are `Nat`; the Go source's `Type` field
is spelled `Type'` because `Type` is reserved in Lean. -/
structure InterfaceDetail where
  Description : String := ""
  Name : String := ""
  Alias : String := ""
  PhysAddress : String := ""
  Index : Int := 0
  Type' : Int := 0
  MTU : Int := 0
  Speed : Nat := 0
  HighSpeed : Nat := 0
  OperStatus : Int := 0
  AdminStatus : Int := 0
  InOctets : Nat := 0
  OutOctets : Nat := 0
  HCInOctets : Nat := 0
  HCOutOctets : Nat := 0
  InUcastPkts : Nat := 0
  OutUcastPkts : Nat := 0
  HCInUcastPkts : Nat := 0
  HCOutUcastPkts : Nat := 0
  InMulticastPkts : Nat := 0
  OutMulticastPkts : Nat := 0
  HCInMulticastPkts : Nat := 0
  HCOutMulticastPkts : Nat := 0
  InBroadcastPkts : Nat := 0
  OutBroadcastPkts : Nat := 0
  HCInBroadcastPkts : Nat := 0
  HCOutBroadcastPkts : Nat := 0
  InNUcastPkts : Nat := 0
  OutNUcastPkts : Nat := 0
  InErrors : Nat := 0
  OutErrors : Nat := 0
  InDiscards : Nat := 0
  OutDiscards : Nat := 0
  LastChange : Nat := 0
  LinkUpDownTrapEnable : Int := 0
  PromiscuousMode : Int := 0
  ConnectorPresent : Int := 0
  CounterDiscontinuityTime : Nat := 0
deriving DecidableEq, Repr

/-- Models `updateInterfaceDetails` of check_interfaces.go (lines 168-395):
switch on the index-stripped OID; each case performs a checked type
assertion (`value.(T)` with the comma-ok form) and on success writes the
field; on a type mismatch the case only logs, leaving the field at its
zero value; unknown OIDs only log. -/
def updateInterfaceDetails (d : InterfaceDetail) (oid : String) (value : GoValue) :
    InterfaceDetail :=
  if oid = OIDIfIndex then
    match value with | .goInt v => { d with Index := v } | _ => d
  else if oid = OIDIfDescr then
    match value with | .goBytes v => { d with Description := bytesToStr v } | _ => d
  else if oid = OIDIfType then
    match value with | .goInt v => { d with Type' := v } | _ => d
  else if oid = OIDIfMTU then
    match value with | .goInt v => { d with MTU := v } | _ => d
  else if oid = OIDIfSpeed then
    match value with | .goUint v => { d with Speed := v } | _ => d
  else if oid = OIDIfHighSpeed then
    match value with | .goUint v => { d with HighSpeed := v } | _ => d
  else if oid = OIDIfPhysAddress then
    match value with | .goBytes v => { d with PhysAddress := hexEncodeBytes v } | _ => d
  else if oid = OIDIfAdminStatus then
    match value with | .goInt v => { d with AdminStatus := v } | _ => d
  else if oid = OIDIfOperStatus then
    match value with | .goInt v => { d with OperStatus := v } | _ => d
  else if oid = OIDIfLastChange then
    match value with | .goUint32 v => { d with LastChange := v } | _ => d
  else if oid = OIDIfInOctets then
    match value with | .goUint v => { d with InOctets := v } | _ => d
  else if oid = OIDIfInUcastPkts then
    match value with | .goUint v => { d with InUcastPkts := v } | _ => d
  else if oid = OIDIfInDiscards then
    match value with | .goUint v => { d with InDiscards := v } | _ => d
  else if oid = OIDIfInErrors then
    match value with | .goUint v => { d with InErrors := v } | _ => d
  else if oid = OIDIfOutOctets then
    match value with | .goUint v => { d with OutOctets := v } | _ => d
  else if oid = OIDIfOutUcastPkts then
    match value with | .goUint v => { d with OutUcastPkts := v } | _ => d
  else if oid = OIDIfOutDiscards then
    match value with | .goUint v => { d with OutDiscards := v } | _ => d
  else if oid = OIDIfOutErrors then
    match value with | .goUint v => { d with OutErrors := v } | _ => d
  else if oid = OIDIfOutNUcastPkts then
    match value with | .goUint v => { d with OutNUcastPkts := v } | _ => d
  else if oid = OIDIfName then
    match value with | .goBytes v => { d with Name := bytesToStr v } | _ => d
  else if oid = OIDIfAlias then
    match value with | .goBytes v => { d with Alias := bytesToStr v } | _ => d
  else if oid = OIDHCInOctets then
    match value with | .goUint64 v => { d with HCInOctets := v } | _ => d
  else if oid = OIDHCOutOctets then
    match value with | .goUint64 v => { d with HCOutOctets := v } | _ => d
  else if oid = OIDHCInUcastPkts then
    match value with | .goUint64 v => { d with HCInUcastPkts := v } | _ => d
  else if oid = OIDHCOutUcastPkts then
    match value with | .goUint64 v => { d with HCOutUcastPkts := v } | _ => d
  else if oid = OIDIfHCInMulticastPkts then
    match value with | .goUint64 v => { d with HCInMulticastPkts := v } | _ => d
  else if oid = OIDIfHCInBroadcastPkts then
    match value with | .goUint64 v => { d with HCInBroadcastPkts := v } | _ => d
  else if oid = OIDIfHCOutBroadcastPkts then
    match value with | .goUint64 v => { d with HCOutBroadcastPkts := v } | _ => d
  else if oid = OIDIfLinkUpDownTrapEnable then
    match value with | .goInt v => { d with LinkUpDownTrapEnable := v } | _ => d
  else if oid = OIDIfConnectorPresent then
    match value with | .goInt v => { d with ConnectorPresent := v } | _ => d
  else if oid = OIDIfOutBroadcastPkts then
    match value with | .goUint v => { d with OutBroadcastPkts := v } | _ => d
  else if oid = OIDIfInBroadcastPkts then
    -- sic: the source's InBroadcastPkts case assigns the OutBroadcastPkts field
    match value with | .goUint v => { d with OutBroadcastPkts := v } | _ => d
  else if oid = OIDIfCounterDiscontinuityTime then
    match value with | .goUint32 v => { d with CounterDiscontinuityTime := v } | _ => d
  else if oid = OIDIfHCOutMulticastPkts then
    match value with | .goUint64 v => { d with HCOutMulticastPkts := v } | _ => d
  else if oid = OIDIfInMulticastPkts then
    match value with | .goUint v => { d with InMulticastPkts := v } | _ => d
  else if oid = OIDIfOutMulticastPkts then
    match value with | .goUint v => { d with OutMulticastPkts := v } | _ => d
  else if oid = OIDIfPromiscuousMode then
    match value with | .goInt v => { d with PromiscuousMode := v } | _ => d
  else
    d

/-- Splitting a character list at every dot, structurally (the recursion
mirrors `strings.Split(oid, ".")` on the string's characters). -/
def splitDotAux : List Char -> List (List Char)
  | [] => [[]]
  | c :: rest =>
    let r := splitDotAux rest
    if c = '.' then [] :: r
    else
      match r with
      | f :: t => (c :: f) :: t
      | [] => [[c]]

/-- Models `strings.Split(oid, ".")`: the dot-separated components of an
OID string (empty components included, as in Go). -/
def splitDot (s : String) : List String :=
  (splitDotAux s.toList).map fun cs => String.mk cs

/-- Models `strings.Join(fields, ".")`. -/
def joinDot : List String -> String
  | [] => ""
  | [s] => s
  | s :: rest => s ++ "." ++ joinDot rest

/-- Models `fields[len(fields)-1]` after `strings.Split(oid, ".")`: the
trailing component of a dotted OID. -/
def lastField (oid : String) : String :=
  (splitDot oid).getLastD ""

/-- Models `strings.Join(fields[:len(fields)-1], ".")`: the OID with its
trailing component removed. -/
def stripIndex (oid : String) : String :=
  joinDot (splitDot oid).dropLast

/-- Digit accumulation of a decimal literal; `none` on the first non-digit
character. -/
def parseNatDigitsAux : List Char -> Nat -> Option Nat
  | [], acc => some acc
  | c :: rest, acc =>
    if c.isDigit then parseNatDigitsAux rest (acc * 10 + (c.toNat - 48))
    else none

/-- Decimal value of a non-empty all-digit character list, else `none`. -/
def parseNatDigits (cs : List Char) : Option Nat :=
  if cs.isEmpty then none else parseNatDigitsAux cs 0

/-- Models `strconv.Atoi`: parse a decimal integer (optionally signed),
`none` on any malformed input (the checks only ever parse small table
indices, so 64-bit range clipping is irrelevant and not modelled). -/
def goAtoi (s : String) : Option Int :=
  match s.toList with
  | '-' :: rest => (parseNatDigits rest).map fun n => -(n : Int)
  | '+' :: rest => (parseNatDigits rest).map fun n => (n : Int)
  | l => (parseNatDigits l).map fun n => (n : Int)

/-- Lookup in the `interfaces` map of `CheckInterfaceMetrics`, modelled as
an association list keyed by the entity index. -/
def findRec : List (Int × InterfaceDetail) → Int → Option InterfaceDetail
  | [], _ => none
  | (j, d) :: rest, i => if i = j then some d else findRec rest i

/-- Insert-or-replace in the `interfaces` map of `CheckInterfaceMetrics`,
modelled as an association list keyed by the entity index. -/
def setRec : List (Int × InterfaceDetail) → Int → InterfaceDetail →
    List (Int × InterfaceDetail)
  | [], i, d => [(i, d)]
  | (j, e) :: rest, i, d =>
    if i = j then (i, d) :: rest else (j, e) :: setRec rest i d

/-- Table-assembly loop of `CheckInterfaceMetrics` (check_interfaces.go
lines 426-447) over the walk result, threading the `interfaces` map as an
association list: take the trailing component of each OID as the entity
index (a failed `Atoi` aborts the whole check — `none`), create the record
on first sight of an index, and update it via `updateInterfaceDetails`
keyed by the index-stripped OID. -/
def assembleFrom : List (Int × InterfaceDetail) → List (String × GoValue) →
    Option (List (Int × InterfaceDetail))
  | m, [] => some m
  | m, (oid, value) :: rest =>
    match goAtoi (lastField oid) with
    | none => none
    | some index =>
      assembleFrom (setRec m index
        (updateInterfaceDetails ((findRec m index).getD {}) (stripIndex oid) value)) rest

/-- Models the whole assembly of `CheckInterfaceMetrics` over the union of
its walks, starting from the empty `interfaces` map. -/
def assembleInterfaces (pairs : List (String × GoValue)) :
    Option (List (Int × InterfaceDetail)) :=
  assembleFrom [] pairs

/-- Models `renderToString` of check_interfaces.go (lines 87-116): the
fixed `fmt.Sprintf` layout of one interface record, keyed by the passed
index. -/
def renderToString (d : InterfaceDetail) (index : Int) : String :=
  "Interface index: " ++ toString index ++
  "\nDescription: " ++ d.Description ++
  "\nAlias: " ++ d.Alias ++
  "\nName: " ++ d.Name ++
  "\nType: " ++ toString d.Type' ++
  "\nSpeed: " ++ toString d.Speed ++
  "\nHighSpeed: " ++ toString d.HighSpeed ++
  "\nOperStatus: " ++ toString d.OperStatus ++
  "\nAdminStatus: " ++ toString d.AdminStatus ++
  "\nInOctets: " ++ toString d.InOctets ++
  "\nOutOctets: " ++ toString d.OutOctets ++
  "\nHCInOctets: " ++ toString d.HCInOctets ++
  "\nHCOutOctets: " ++ toString d.HCOutOctets ++
  "\nHCInUcastPkts: " ++ toString d.HCInUcastPkts ++
  "\nHCOutUcastPkts: " ++ toString d.HCOutUcastPkts ++
  "\nInErrors: " ++ toString d.InErrors ++
  "\nOutErrors: " ++ toString d.OutErrors ++
  "\nInUcastPkts: " ++ toString d.InUcastPkts ++
  "\nOutUcastPkts: " ++ toString d.OutUcastPkts ++
  "\nInNUcastPkts: " ++ toString d.InNUcastPkts ++
  "\nOutNUcastPkts: " ++ toString d.OutNUcastPkts ++
  "\nPromiscuousMode: " ++ toString d.PromiscuousMode ++
  "\nLastChange: " ++ toString d.LastChange ++
  "\nPhysAddress: " ++ d.PhysAddress ++ "\n\n"

/-- Models `buildInterfaceDetailsMessage` of check_interfaces.go (lines
397-403).  The Go function ranges over the `map[int]*InterfaceDetail`
directly; the argument here is the iteration order the runtime happens to
choose, which Go does not fix and the function does not sort. -/
def buildInterfaceDetailsMessage (iteration : List (Int × InterfaceDetail)) : String :=
  iteration.foldl (fun acc p => acc ++ renderToString p.2 p.1) ""

/-- Outcome of a Go function call that can either return normally, return
an error value, or crash with an unhandled runtime panic. -/
inductive GoOutcome (α : Type) where
  | ok (val : α)
  | goErr (msg : String)
  | panicked
deriving DecidableEq, Repr

/-- Go checked conversion to `[]uint8`; `none` means the unchecked
assertion `value.([]uint8)` would panic. -/
def assertBytes : GoValue → Option (List Nat)
  | .goBytes bs => some bs
  | _ => none

/-- Go checked conversion to `uint`; `none` means the unchecked assertion
`value.(uint)` would panic. -/
def assertUint : GoValue → Option Nat
  | .goUint v => some v
  | _ => none

/-- Go checked conversion to `uint64`; `none` means the unchecked
assertion `value.(uint64)` would panic. -/
def assertUint64 : GoValue → Option Nat
  | .goUint64 v => some v
  | _ => none

/-- Decode step of `GetInterfaceMetrics` (check_interface_usage.go lines
99-116) on the values returned for the seven usage OIDs (ifName, ifInOctets,
ifOutOctets, ifHCInOctets, ifHCOutOctets, ifSpeed, ifHighSpeed, in that
order).  A nil first value is the graceful `Index doesn't exist?` error
return; everything else goes through unchecked type assertions and
out-of-range indexing, so any wire-type mismatch or missing variable is an
unhandled runtime panic (`.panicked`). -/
def GetInterfaceMetricsDecode (vars : List GoValue) (latency now : Nat) :
    GoOutcome InterfaceMetrics :=
  match vars[0]? with
  | none => .panicked
  | some v0 =>
    if v0 = .goNil then .goErr "Index doesn't exist?"
    else
      match (do
        let nameBytes ← assertBytes v0
        let inV ← vars[1]? >>= assertUint
        let outV ← vars[2]? >>= assertUint
        let hcInV ← vars[3]? >>= assertUint64
        let hcOutV ← vars[4]? >>= assertUint64
        let speedV ← vars[5]? >>= assertUint
        let highSpeedV ← vars[6]? >>= assertUint
        some { Name := bytesToStr nameBytes, In := inV, Out := outV,
               HCIn := hcInV, HCOut := hcOutV, Speed := speedV,
               HighSpeed := highSpeedV, Latency := latency,
               Timestamp := now } : Option InterfaceMetrics) with
      | some m => .ok m
      | none => .panicked

/-- Models the `PhysicalEntity` struct of device_inventory.go. -/
structure PhysicalEntity where
  Index : Int := 0
  Description : String := ""
  Vendor : String := ""
  ModelName : String := ""
  SerialNumber : String := ""
deriving DecidableEq, Repr

/-- Models the source's `entities[len(entities)-1].Field = v` updates: a
rewrite of the last element; the empty case is unreachable in the source
(guarded by `len(entities) > 0`). -/
def setLastEntity : List PhysicalEntity → (PhysicalEntity → PhysicalEntity) →
    List PhysicalEntity
  | [], _ => []
  | [e], f => [f e]
  | e :: rest, f => e :: setLastEntity rest f

/-- Loop of `collectPhysicalEntities` (device_inventory.go lines 313-343)
over the walk result in iteration order, threading the
`currentEntityIndex` accumulator (the package variable, reset to 0 on
entry): an `entPhysicalDescr` byte value increments the running counter
and appends a new entity carrying that counter as its index; vendor,
model-name and serial values are written into the most recently appended
entity. -/
def collectPhysicalEntitiesLoop :
    List PhysicalEntity → Int → List (String × GoValue) → List PhysicalEntity
  | entities, _, [] => entities
  | entities, currentEntityIndex, (oid, value) :: rest =>
    if oid = "1.3.6.1.2.1.47.1.1.1.1.2" then
      match value with
      | .goBytes bs =>
        collectPhysicalEntitiesLoop
          (entities ++ [{ Index := currentEntityIndex + 1,
                          Description := bytesToStr bs }])
          (currentEntityIndex + 1) rest
      | _ => collectPhysicalEntitiesLoop entities currentEntityIndex rest
    else if oid = "1.3.6.1.2.1.47.1.1.1.1.3" then
      match value with
      | .goBytes bs =>
        collectPhysicalEntitiesLoop
          (setLastEntity entities fun e => { e with Vendor := bytesToStr bs })
          currentEntityIndex rest
      | _ => collectPhysicalEntitiesLoop entities currentEntityIndex rest
    else if oid = "1.3.6.1.2.1.47.1.1.1.1.5" then
      match value with
      | .goBytes bs =>
        collectPhysicalEntitiesLoop
          (setLastEntity entities fun e => { e with ModelName := bytesToStr bs })
          currentEntityIndex rest
      | _ => collectPhysicalEntitiesLoop entities currentEntityIndex rest
    else if oid = "1.3.6.1.2.1.47.1.1.1.1.11" then
      match value with
      | .goBytes bs =>
        collectPhysicalEntitiesLoop
          (setLastEntity entities fun e => { e with SerialNumber := bytesToStr bs })
          currentEntityIndex rest
      | _ => collectPhysicalEntitiesLoop entities currentEntityIndex rest
    else
      collectPhysicalEntitiesLoop entities currentEntityIndex rest

/-- Models `collectPhysicalEntities` of device_inventory.go (lines
301-346) with the transport walk abstracted into the pair list. -/
def collectPhysicalEntities (pairs : List (String × GoValue)) : List PhysicalEntity :=
  collectPhysicalEntitiesLoop [] 0 pairs

/-- Models the `BgpPeer` struct of check_bgp_peers.go. -/
structure BgpPeer where
  Index : Int := 0
  AdminStatus : Int := 0
  OperationalStatus : Int := 0
deriving DecidableEq, Repr

/-- The mismatch-counting loop of check_bgp_peers.go `main` (lines 95-100):
the number of peers whose admin status differs from their operational
status. -/
def countMismatchedPeers (peers : List BgpPeer) : Nat :=
  peers.countP fun p => decide (p.AdminStatus ≠ p.OperationalStatus)

/-- Verdict logic of check_bgp_peers.go `main` (lines 95-114) after a
successful `GetBgpPeers`: CRITICAL with the mismatch count (message and
`mismatched_peers` performance sample) when any peer's statuses differ,
else OK reporting the total peer count (`total_peers` sample). -/
def evaluateBgpPeers (peers : List BgpPeer) : CheckResult :=
  let mismatchCount := countMismatchedPeers peers
  if mismatchCount > 0 then
    (NewCheckResult.SetResult .Critical
      ("Found " ++ toString mismatchCount ++
        " BGP peer(s) with admin status mismatch")).AddPerformanceData
      "mismatched_peers" { Value := (mismatchCount : Rat), UnitOM := "count" }
  else
    (NewCheckResult.SetResult .OK
      ("All " ++ toString peers.length ++
        " BGP peers have matching admin and operational status")).AddPerformanceData
      "total_peers" { Value := (peers.length : Rat), UnitOM := "count" }

/-- C3: a wire value of unexpected type for a known OID is handled safely
in the table assembler — `updateInterfaceDetails` leaves that single field
at its zero value and the record otherwise unaffected (first conjunct) —
but NOT in the usage check: `GetInterfaceMetrics` decodes `ifInOctets`
with the unchecked assertion `.(uint)`, so an Integer-typed value is an
unhandled runtime panic rather than a zero-valued field (second
conjunct). -/
theorem c3_decode_mismatch_panics :
    updateInterfaceDetails {} OIDIfInOctets (.goInt 5) = ({} : InterfaceDetail) ∧
    GetInterfaceMetricsDecode
      [.goBytes [101, 116, 104, 48], .goInt 5, .goUint 0, .goUint64 0,
       .goUint64 0, .goUint 0, .goUint 0] 0 0 = .panicked := by
  exact ⟨by decide, by decide⟩

/-- Walk pairs of the table-assembly scenario: `ifDescr.3 = "eth0"`,
`ifSpeed.3 = 1000000000`, `ifHCInOctets.3 = 500` (the first two from the
ifEntry table, the third from the ifXTable). -/
def c7Pairs : List (String × GoValue) :=
  [(".1.3.6.1.2.1.2.2.1.2.3", .goBytes [101, 116, 104, 48]),
   (".1.3.6.1.2.1.2.2.1.5.3", .goUint 1000000000),
   (".1.3.6.1.2.1.31.1.1.1.6.3", .goUint64 500)]

/-- The single record the scenario's walk pairs assemble to: index 3 with
the description, speed and high-capacity inbound counter populated. -/
def c7Record : InterfaceDetail :=
  { Description := "eth0", Speed := 1000000000, HCInOctets := 500 }

/-- C7: assembling the OID set {ifDescr.3, ifSpeed.3, ifHCInOctets.3}
yields exactly one record, at index 3, with all three fields populated —
for every ordering in which the pairs are processed, fields from both base
tables accumulating into the same record. -/
theorem c7_assembly_order_independent (l : List (String × GoValue))
    (h : l.Perm c7Pairs) :
    assembleInterfaces l = some [(3, c7Record)] := by
  have hm : l ∈ c7Pairs.permutations' := List.mem_permutations'.mpr h
  have he : c7Pairs.permutations' =
      [[(".1.3.6.1.2.1.2.2.1.2.3", .goBytes [101, 116, 104, 48]),
        (".1.3.6.1.2.1.2.2.1.5.3", .goUint 1000000000),
        (".1.3.6.1.2.1.31.1.1.1.6.3", .goUint64 500)],
       [(".1.3.6.1.2.1.2.2.1.5.3", .goUint 1000000000),
        (".1.3.6.1.2.1.2.2.1.2.3", .goBytes [101, 116, 104, 48]),
        (".1.3.6.1.2.1.31.1.1.1.6.3", .goUint64 500)],
       [(".1.3.6.1.2.1.2.2.1.5.3", .goUint 1000000000),
        (".1.3.6.1.2.1.31.1.1.1.6.3", .goUint64 500),
        (".1.3.6.1.2.1.2.2.1.2.3", .goBytes [101, 116, 104, 48])],
       [(".1.3.6.1.2.1.2.2.1.2.3", .goBytes [101, 116, 104, 48]),
        (".1.3.6.1.2.1.31.1.1.1.6.3", .goUint64 500),
        (".1.3.6.1.2.1.2.2.1.5.3", .goUint 1000000000)],
       [(".1.3.6.1.2.1.31.1.1.1.6.3", .goUint64 500),
        (".1.3.6.1.2.1.2.2.1.2.3", .goBytes [101, 116, 104, 48]),
        (".1.3.6.1.2.1.2.2.1.5.3", .goUint 1000000000)],
       [(".1.3.6.1.2.1.31.1.1.1.6.3", .goUint64 500),
        (".1.3.6.1.2.1.2.2.1.5.3", .goUint 1000000000),
        (".1.3.6.1.2.1.2.2.1.2.3", .goBytes [101, 116, 104, 48])]] := by
    decide
  rw [he] at hm
  simp only [List.mem_cons, List.not_mem_nil, or_false] at hm
  rcases hm with rfl | rfl | rfl | rfl | rfl | rfl <;> decide

/-- Witness for `c7_assembly_order_independent` at the identity ordering. -/
theorem c7_assembly_order_independent_witness :
    assembleInterfaces c7Pairs = some [(3, c7Record)] :=
  c7_assembly_order_independent c7Pairs (List.Perm.refl c7Pairs)

/-- C9: `buildInterfaceDetailsMessage` does not sort by entity index — it
concatenates records in whatever order the Go map iteration yields, so the
same two-record map rendered in its two possible iteration orders produces
two different messages.  Deterministic, index-sorted output as claimed
would make these equal. -/
theorem c9_message_depends_on_iteration_order :
    buildInterfaceDetailsMessage [(1, {}), (2, {})] ≠
      buildInterfaceDetailsMessage [(2, {}), (1, {})] := by
  decide

/-- Looking up the index just written by `setRec` returns the written
record. -/
theorem findRec_setRec_self (m : List (Int × InterfaceDetail)) (i : Int)
    (d : InterfaceDetail) : findRec (setRec m i d) i = some d := by
  induction m with
  | nil => simp [setRec, findRec]
  | cons p rest ih =>
    obtain ⟨k, e⟩ := p
    by_cases h : i = k
    · simp [setRec, findRec, h]
    · simp [setRec, findRec, h, ih]

/-- Writing one index with `setRec` leaves every other index's record
unchanged. -/
theorem findRec_setRec_ne (m : List (Int × InterfaceDetail)) (i j : Int)
    (d : InterfaceDetail) (h : i ≠ j) :
    findRec (setRec m j d) i = findRec m i := by
  induction m with
  | nil => simp [setRec, findRec, h]
  | cons p rest ih =>
    obtain ⟨k, e⟩ := p
    by_cases hjk : j = k
    · subst hjk
      simp [setRec, findRec, h]
    · by_cases hik : i = k
      · simp [setRec, findRec, hjk, hik]
      · simp [setRec, findRec, hjk, hik, ih]

/-- Accumulator-generalised index-locality of the assembly loop: running
the loop on only the pairs whose trailing component parses to `i` produces
the same record at `i` as running it on the full list, for any pair of
accumulators agreeing at `i`. -/
theorem assembleFrom_filter_aux (i : Int) (l : List (String × GoValue)) :
    ∀ acc acc' : List (Int × InterfaceDetail),
      findRec acc i = findRec acc' i →
      ∀ m, assembleFrom acc l = some m →
      ∃ m', assembleFrom acc'
          (l.filter fun p => decide (goAtoi (lastField p.1) = some i)) = some m' ∧
        findRec m i = findRec m' i := by
  induction l with
  | nil =>
    intro acc acc' hacc m hm
    simp only [assembleFrom, Option.some.injEq] at hm
    subst hm
    exact ⟨acc', by simp [assembleFrom], hacc⟩
  | cons p rest ih =>
    intro acc acc' hacc m hm
    obtain ⟨oid, value⟩ := p
    cases hatoi : goAtoi (lastField oid) with
    | none =>
      simp [assembleFrom, hatoi] at hm
    | some j =>
      simp only [assembleFrom, hatoi] at hm
      by_cases hji : j = i
      · subst hji
        have hfilter :
            ((oid, value) :: rest).filter
                (fun p => decide (goAtoi (lastField p.1) = some j)) =
              (oid, value) ::
                rest.filter (fun p => decide (goAtoi (lastField p.1) = some j)) := by
          simp [List.filter, hatoi]
        rw [hfilter]
        simp only [assembleFrom, hatoi]
        refine ih _ _ ?_ m hm
        rw [findRec_setRec_self, findRec_setRec_self, hacc]
      · have hfilter :
            ((oid, value) :: rest).filter
                (fun p => decide (goAtoi (lastField p.1) = some i)) =
              rest.filter (fun p => decide (goAtoi (lastField p.1) = some i)) := by
          simp [List.filter, hatoi, hji]
        rw [hfilter]
        refine ih _ acc' ?_ m hm
        rw [findRec_setRec_ne _ _ _ _ (fun hc => hji hc.symm), hacc]

/-- C8 (amended to interface records): the record `CheckInterfaceMetrics`
assembles at index `i` is determined exclusively by the walk pairs whose
OID's trailing numeric component is `i` — every field of the record at `i`
came from an OID with trailing index `i`, and pairs belonging to two
different indices never merge into one record. -/
theorem c8_interface_assembly_index_locality (l : List (String × GoValue))
    (m : List (Int × InterfaceDetail)) (i : Int)
    (h : assembleInterfaces l = some m) :
    ∃ m', assembleInterfaces
        (l.filter fun p => decide (goAtoi (lastField p.1) = some i)) = some m' ∧
      findRec m i = findRec m' i :=
  assembleFrom_filter_aux i l [] [] rfl m h

/-- Walk pairs with two distinct indices, for the index-locality witness:
`ifDescr.3 = "a"`, `ifDescr.7 = "b"`. -/
def c8Pairs : List (String × GoValue) :=
  [(".1.3.6.1.2.1.2.2.1.2.3", .goBytes [97]),
   (".1.3.6.1.2.1.2.2.1.2.7", .goBytes [98])]

/-- The map assembled from `c8Pairs`: one record per index. -/
def c8Map : List (Int × InterfaceDetail) :=
  [(3, { Description := "a" }), (7, { Description := "b" })]

/-- Witness for `c8_interface_assembly_index_locality` at `c8Pairs` and
index 3. -/
theorem c8_interface_assembly_index_locality_witness :
    ∃ m', assembleInterfaces
        (c8Pairs.filter fun p => decide (goAtoi (lastField p.1) = some 3)) = some m' ∧
      findRec c8Map 3 = findRec m' 3 :=
  c8_interface_assembly_index_locality c8Pairs c8Map 3 (by decide)

/-- C8 counterexample: `collectPhysicalEntities` does not key records by
the OID's trailing component — a walk pair whose OID ends in component 2
produces a record carrying index 1 (the running `currentEntityIndex`
counter), so the claim's invariant fails for physical entities. -/
theorem c8_physical_entity_index_counterexample :
    collectPhysicalEntities [("1.3.6.1.2.1.47.1.1.1.1.2", .goBytes [99, 112, 117])] =
      [{ Index := 1, Description := "cpu" }] ∧
    goAtoi (lastField "1.3.6.1.2.1.47.1.1.1.1.2") = some 2 ∧
    (1 : Int) ≠ 2 := by
  exact ⟨by decide, by decide, by decide⟩

/-- C10: the BGP peer check is CRITICAL exactly when some peer's admin
status differs from its operational status; on mismatch the message and
the `mismatched_peers` performance sample carry the mismatch count, and
with no mismatch the verdict is OK reporting the total peer count. -/
theorem c10_bgp_peers_verdict (peers : List BgpPeer) :
    ((evaluateBgpPeers peers).state = .Critical ↔
      ∃ p ∈ peers, p.AdminStatus ≠ p.OperationalStatus) ∧
    (0 < countMismatchedPeers peers →
      (evaluateBgpPeers peers).message =
        "Found " ++ toString (countMismatchedPeers peers) ++
          " BGP peer(s) with admin status mismatch" ∧
      (evaluateBgpPeers peers).perfData =
        [("mismatched_peers",
          { Value := (countMismatchedPeers peers : Rat), UnitOM := "count" })]) ∧
    (countMismatchedPeers peers = 0 →
      (evaluateBgpPeers peers).state = .OK ∧
      (evaluateBgpPeers peers).message =
        "All " ++ toString peers.length ++
          " BGP peers have matching admin and operational status" ∧
      (evaluateBgpPeers peers).perfData =
        [("total_peers", { Value := (peers.length : Rat), UnitOM := "count" })]) := by
  by_cases h : 0 < countMismatchedPeers peers
  · refine ⟨⟨fun _ => ?_, fun _ => ?_⟩, fun _ => ?_, fun h0 => absurd h0 (by omega)⟩
    · obtain ⟨q, hq, hpq⟩ := List.countP_pos_iff.mp h
      exact ⟨q, hq, of_decide_eq_true hpq⟩
    · simp [evaluateBgpPeers, h, CheckResult.SetResult, CheckResult.AddPerformanceData,
        NewCheckResult]
    · constructor <;>
        simp [evaluateBgpPeers, h, CheckResult.SetResult, CheckResult.AddPerformanceData,
          NewCheckResult]
  · have h0 : countMismatchedPeers peers = 0 := by omega
    refine ⟨⟨fun hst => ?_, fun hex => ?_⟩, fun hc => absurd hc (by omega), fun _ => ?_⟩
    · rw [evaluateBgpPeers] at hst
      simp [h0, CheckResult.SetResult, CheckResult.AddPerformanceData,
        NewCheckResult] at hst
    · obtain ⟨q, hq, hne⟩ := hex
      have hpos : 0 < countMismatchedPeers peers :=
        List.countP_pos_iff.mpr ⟨q, hq, decide_eq_true hne⟩
      omega
    · refine ⟨?_, ?_, ?_⟩ <;>
        simp [evaluateBgpPeers, h0, CheckResult.SetResult, CheckResult.AddPerformanceData,
          NewCheckResult]

/-- Single-peer list with an admin/operational mismatch. -/
def c10Peers : List BgpPeer :=
  [{ Index := 1, AdminStatus := 1, OperationalStatus := 2 }]

/-- Witness for `c10_bgp_peers_verdict` at the one-mismatched-peer list. -/
theorem c10_bgp_peers_verdict_witness :
    (evaluateBgpPeers c10Peers).state = .Critical ∧
    (evaluateBgpPeers c10Peers).perfData =
      [("mismatched_peers",
        { Value := (countMismatchedPeers c10Peers : Rat), UnitOM := "count" })] :=
  ⟨(c10_bgp_peers_verdict c10Peers).1.mpr
      ⟨{ Index := 1, AdminStatus := 1, OperationalStatus := 2 }, by decide, by decide⟩,
   ((c10_bgp_peers_verdict c10Peers).2.1 (by decide)).2⟩
